import Mathlib

/-!
Verification of the playback-state reconciler, shader-intensity driver,
preference persistence, and sound de-duplication gates of the Tipenso
repository (a Windows-XP-themed media-player web page).

The JavaScript sources are shallowly embedded as pure Lean functions:

* numbers that the page treats as real quantities (intensities, volumes)
  become `ℚ`; times in milliseconds become `Nat`;
* DOM `dataset` string flags (set to `'true'` / cleared to `''`) become
  `Bool` fields (`''` and missing attributes are both falsy in the source);
* `setTimeout` callbacks become explicit pending-timer lists
  `List (Nat × Timer)`; the single-threaded event loop is modelled by
  firing every due timer (at its own scheduled time) before each
  delivered event;
* audio output and `console` logging are side effects outside the model;
  a play helper returns the same `Bool` the source function returns.
-/

namespace Viz

/-- Playback-state reconciler state of `Visualizer` (src/visualizer.js).
`isPlaying` (line 19, initially false), `intensity` (line 14, initially
0.5), `lastIframeClickTime` and `lastPlaybackState` are the closure
variables of `setupDirectIframeListeners` (lines 395-396), and
`notified` records the payloads of the `playback-update` events
dispatched to listeners (line 761). -/
structure RState where
  isPlaying : Bool
  intensity : ℚ
  lastIframeClickTime : Nat
  lastPlaybackState : Bool
  notified : List Bool
deriving DecidableEq, Repr

/-- Initial reconciler state: the constructor sets `isPlaying := false`
and `intensity := 0.5`; `lastIframeClickTime` starts at 0 and
`lastPlaybackState` is initialised from `this.isPlaying` at listener
setup. -/
def initR : RState :=
  { isPlaying := false, intensity := 1/2, lastIframeClickTime := 0,
    lastPlaybackState := false, notified := [] }

/-- Model of `Visualizer.updatePlaybackStatus` (visualizer.js lines 733-762):
if a non-null new state is supplied, overwrite `isPlaying`; then set
`intensity` from `isPlaying` and dispatch a `playback-update` event. -/
def updatePlaybackStatus (s : RState) (newState : Option Bool) : RState :=
  let s :=
    match newState with
    | some b => { s with isPlaying := b }
    | none => s
  { s with intensity := if s.isPlaying then 1 else 1/2,
           notified := s.notified ++ [s.isPlaying] }

/-- The accepted-message path of the `message` listener
(visualizer.js lines 328-344): sets `intensity` from the extracted
boolean and then calls `updatePlaybackStatus` with it. -/
def messageUpdate (s : RState) (b : Bool) : RState :=
  updatePlaybackStatus { s with intensity := if b then 1 else 1/2 } (some b)

/-- Signals delivered to the reconciler, as named by the spec:
controller `playback_update` events (lines 356-370), accepted
cross-document messages (lines 328-344), iframe clicks recording
`lastIframeClickTime` (line 403-404), and DOM-mutation heuristics
(`parentObserver`, lines 444-472).  A mutation carries its arrival
time and the state object later reported by
`spotifyController.getPlaybackState()` (`none` models a null state). -/
inductive Signal where
  | controller (isPaused : Bool)
  | message (playing : Bool)
  | click (t : Nat)
  | mutation (t : Nat) (reported : Option Bool)
deriving DecidableEq, Repr

/-- The value a mutation heuristic derives from the controller report:
`const isPlaying = state && !state.isPaused` (line 458). -/
def reportedPlaying : Option Bool → Bool
  | some isPaused => !isPaused
  | none => false

/-- One reconciler step (src/visualizer.js).  The controller listener
(lines 356-364) writes `isPlaying` and `intensity`, then calls
`updatePlaybackStatus`.  A click stores `lastIframeClickTime`
(line 404).  A mutation is examined only within 3000 ms of the last
recorded click (line 449); the settled controller report is applied
only when it differs from the closure variable `lastPlaybackState`
(lines 458-463), which is then updated. -/
def rstep (s : RState) : Signal → RState
  | .controller isPaused =>
      let s := { s with isPlaying := !isPaused,
                        intensity := if !isPaused then 1 else 1/2 }
      updatePlaybackStatus s (some s.isPlaying)
  | .message b => messageUpdate s b
  | .click t => { s with lastIframeClickTime := t }
  | .mutation t reported =>
      if t - s.lastIframeClickTime < 3000 then
        let v := reportedPlaying reported
        if v ≠ s.lastPlaybackState then
          let s := messageUpdate s v
          { s with lastPlaybackState := v }
        else s
      else s

/-- Deliver a list of signals in order. -/
def runR (s : RState) : List Signal → RState
  | [] => s
  | sig :: rest => runR (rstep s sig) rest

/-! Specification-side acceptance, following the words of the claim:
controller and message signals are always accepted; a heuristic
(mutation) signal is accepted exactly when it arrives within the
3-second trust window after the last recorded iframe click.  The fold
tracks the last recorded click time and the value asserted by the most
recent accepted signal. -/

/-- Claim-side accumulator: last recorded click time and the boolean
asserted by the most recent accepted signal (if any). -/
structure SpecAcc where
  lastClick : Nat
  lastVal : Option Bool
deriving DecidableEq, Repr

/-- Acceptance as worded by the claim (trust window only). -/
def specStep (a : SpecAcc) : Signal → SpecAcc
  | .controller isPaused => { a with lastVal := some (!isPaused) }
  | .message b => { a with lastVal := some b }
  | .click t => { a with lastClick := t }
  | .mutation t reported =>
      if t - a.lastClick < 3000 then
        { a with lastVal := some (reportedPlaying reported) }
      else a

/-- Fold the claim-side acceptance over a signal list. -/
def specFold (a : SpecAcc) : List Signal → SpecAcc
  | [] => a
  | sig :: rest => specFold (specStep a sig) rest

/-- Acceptance as implemented: the value a signal actually applies to
the state, `none` when the signal is ignored.  A mutation is effective
only within the trust window AND when its derived value differs from
the shadow variable `lastPlaybackState`. -/
def acceptedValue (s : RState) : Signal → Option Bool
  | .controller isPaused => some (!isPaused)
  | .message b => some b
  | .click _ => none
  | .mutation t reported =>
      if t - s.lastIframeClickTime < 3000 then
        let v := reportedPlaying reported
        if v ≠ s.lastPlaybackState then some v else none
      else none

/-- Implementation-side accumulator mirroring `acceptedValue`:
also tracks the shadow `lastPlaybackState`. -/
structure EffAcc where
  lastClick : Nat
  shadow : Bool
  lastVal : Option Bool
deriving DecidableEq, Repr

/-- Amended acceptance: a heuristic is accepted only if it is inside
the trust window and differs from the last heuristic-observed value. -/
def effStep (a : EffAcc) : Signal → EffAcc
  | .controller isPaused => { a with lastVal := some (!isPaused) }
  | .message b => { a with lastVal := some b }
  | .click t => { a with lastClick := t }
  | .mutation t reported =>
      if t - a.lastClick < 3000 then
        let v := reportedPlaying reported
        if v ≠ a.shadow then { a with shadow := v, lastVal := some v }
        else a
      else a

/-- Fold the amended acceptance over a signal list. -/
def effFold (a : EffAcc) : List Signal → EffAcc
  | [] => a
  | sig :: rest => effFold (effStep a sig) rest

/-- Coupling between the implementation state and the amended
specification accumulator. -/
def couples (s : RState) (a : EffAcc) (init : Bool) : Prop :=
  a.lastClick = s.lastIframeClickTime ∧ a.shadow = s.lastPlaybackState ∧
    s.isPlaying = a.lastVal.getD init

theorem rstep_couples {s : RState} {a : EffAcc} {init : Bool}
    (h : couples s a init) (sig : Signal) :
    couples (rstep s sig) (effStep a sig) init := by
  obtain ⟨h1, h2, h3⟩ := h
  cases sig with
  | controller isPaused =>
      simp [rstep, effStep, updatePlaybackStatus, couples, h1, h2]
  | message b =>
      simp [rstep, effStep, messageUpdate, updatePlaybackStatus, couples, h1, h2]
  | click t =>
      simp [rstep, effStep, couples, h1, h2, h3]
  | mutation t reported =>
      by_cases hw : t - s.lastIframeClickTime < 3000
      · by_cases hv : reportedPlaying reported = s.lastPlaybackState
        · simp [rstep, effStep, couples, h1, h2, hw, hv, h3]
        · simp [rstep, effStep, messageUpdate, updatePlaybackStatus, couples,
                h1, h2, hw, hv, h3]
      · simp [rstep, effStep, couples, h1, h2, hw, h3]

theorem runR_couples {s : RState} {a : EffAcc} {init : Bool}
    (h : couples s a init) (sigs : List Signal) :
    couples (runR s sigs) (effFold a sigs) init := by
  induction sigs generalizing s a with
  | nil => exact h
  | cons sig rest ih => exact ih (rstep_couples h sig)

/-- C2: the claim as stated is false.  Sequence: iframe click at
t = 100 records the click time; an accepted message asserts playing;
a DOM mutation at t = 200 (inside the 3-second trust window) whose
settled controller report says paused.  The claim predicts the final
`isPlaying` equals the value of the most recent accepted signal
(false), but the implementation compares the heuristic against the
stale closure variable `lastPlaybackState` (still false, because the
message path never updates it) and drops the update, leaving
`isPlaying = true`. -/
theorem c2_reconciler_counterexample :
    ¬ ((runR initR
          [Signal.click 100, Signal.message true,
           Signal.mutation 200 (some true)]).isPlaying =
        ((specFold { lastClick := initR.lastIframeClickTime, lastVal := none }
          [Signal.click 100, Signal.message true,
           Signal.mutation 200 (some true)]).lastVal).getD initR.isPlaying) := by
  decide

/-- C2 (amended): for every sequence of controller, message and
heuristic signals, the final `isPlaying` equals the boolean asserted by
the most recent accepted signal (initial value if none was accepted),
where a heuristic (DOM mutation) signal is accepted only if it arrives
within the 3-second trust window after a recorded iframe click AND its
derived value differs from the last heuristic-observed value (the
`lastPlaybackState` shadow, initialised from `isPlaying` at setup);
moreover every accepted signal (in particular every accepted signal
that disagrees with the current state) sets `isPlaying` to its value
and synchronously notifies dependents with it. -/
theorem c2_reconciler_amended (s0 : RState) (sigs : List Signal) :
    (runR s0 sigs).isPlaying =
      ((effFold { lastClick := s0.lastIframeClickTime,
                  shadow := s0.lastPlaybackState, lastVal := none }
          sigs).lastVal).getD s0.isPlaying
    ∧ ∀ s sig b, acceptedValue s sig = some b →
        (rstep s sig).isPlaying = b ∧
          (rstep s sig).notified = s.notified ++ [b] := by
  constructor
  · exact (runR_couples ⟨rfl, rfl, rfl⟩ sigs).2.2
  · intro s sig b hb
    cases sig with
    | controller isPaused =>
        simp only [acceptedValue, Option.some.injEq] at hb
        subst hb
        simp [rstep, updatePlaybackStatus]
    | message b' =>
        simp only [acceptedValue, Option.some.injEq] at hb
        subst hb
        simp [rstep, messageUpdate, updatePlaybackStatus]
    | click t =>
        simp [acceptedValue] at hb
    | mutation t reported =>
        by_cases hw : t - s.lastIframeClickTime < 3000
        · by_cases hv : reportedPlaying reported = s.lastPlaybackState
          · simp [acceptedValue, hw, hv] at hb
          · simp only [acceptedValue, hw, if_true, hv, ne_eq,
              not_false_iff, if_pos, Option.some.injEq] at hb
            subst hb
            simp [rstep, hw, hv, messageUpdate, updatePlaybackStatus]
        · simp [acceptedValue, hw] at hb

/-- Witness for the amended C2 theorem at a concrete input. -/
theorem c2_reconciler_amended_witness :
    ((runR initR [Signal.message true]).isPlaying =
      ((effFold { lastClick := initR.lastIframeClickTime,
                  shadow := initR.lastPlaybackState, lastVal := none }
          [Signal.message true]).lastVal).getD initR.isPlaying)
    ∧ ((rstep initR (Signal.message true)).isPlaying = true ∧
        (rstep initR (Signal.message true)).notified =
          initR.notified ++ [true]) := by
  have h := c2_reconciler_amended initR [Signal.message true]
  exact ⟨h.1, h.2 initR (Signal.message true) true rfl⟩

/-! Manual toggle (`Visualizer.togglePlayback`, visualizer.js lines
564-640).  The external command channels are modelled by an
environment saying which handles exist and which commands throw; every
throw in the source is caught by a `try`/`catch` whose handler either
falls back to the next channel or only logs, so the dispatch is a
total function and the local state update below it always runs. -/

/-- Availability and failure behaviour of the external command
channels used by `togglePlayback`. -/
structure ToggleEnv where
  hasController : Bool
  playCmdFails : Bool
  pauseCmdFails : Bool
  toggleCmdFails : Bool
  hasIframe : Bool
  postMessageFails : Bool
deriving DecidableEq, Repr

/-- The command-dispatch block of `togglePlayback` (lines 572-622):
with a controller, try `playFromClickEvent`/`pause`, falling back to
`toggle` on a caught error (a second caught error is only logged);
without a controller, post a `play`/`pause` message to the iframe when
present (a caught error is only logged).  Returns the commands that
reached the external player; the delayed programmatic click on the
iframe play button (line 604-617) is a caught, fire-and-forget
side effect with no influence on local state. -/
def dispatchCommands (env : ToggleEnv) (newState : Bool) : List String :=
  if env.hasController then
    if newState then
      if env.playCmdFails then
        if env.toggleCmdFails then [] else ["toggle"]
      else ["playFromClickEvent"]
    else
      if env.pauseCmdFails then
        if env.toggleCmdFails then [] else ["toggle"]
      else ["pause"]
  else if env.hasIframe then
    if env.postMessageFails then [] else [if newState then "play" else "pause"]
  else []

/-- Model of `Visualizer.togglePlayback` (lines 564-640): compute the negated
state, dispatch external commands (all failures caught), then set the
local `isPlaying`, call `updatePlaybackStatus()` (no argument), and
dispatch a second `playback-update` event (line 637); returns the new
`isPlaying`. -/
def togglePlayback (env : ToggleEnv) (s : RState) : Bool × List String × RState :=
  let newState := !s.isPlaying
  let cmds := dispatchCommands env newState
  let s := { s with isPlaying := newState }
  let s := updatePlaybackStatus s none
  let s := { s with notified := s.notified ++ [s.isPlaying] }
  (s.isPlaying, cmds, s)

/-- C3: a manual toggle flips `isPlaying` to the negation of its
current value synchronously and unconditionally: for every environment
(including one where every external command channel throws or is
absent) the returned value and the stored state are the negated flag,
dependents are notified (twice, by `updatePlaybackStatus` and by the
explicit dispatch), and the outcome is independent of the external
channels; `togglePlayback` is a total function, so it never raises. -/
theorem c3_manual_toggle (env : ToggleEnv) (s : RState) :
    (togglePlayback env s).1 = !s.isPlaying
    ∧ (togglePlayback env s).2.2.isPlaying = !s.isPlaying
    ∧ (togglePlayback env s).2.2.notified =
        s.notified ++ [!s.isPlaying, !s.isPlaying]
    ∧ ∀ env' : ToggleEnv,
        (togglePlayback env' s).1 = (togglePlayback env s).1 ∧
        (togglePlayback env' s).2.2 = (togglePlayback env s).2.2 := by
  refine ⟨rfl, rfl, by simp [togglePlayback, updatePlaybackStatus], ?_⟩
  intro env'
  exact ⟨rfl, rfl⟩

/-! Shader intensity driver (`Visualizer.animate`, visualizer.js lines
1017-1038, and `updateVisualizationStyle`, lines 976-993).  The
per-frame uniform is `this.intensity * this.visualizationIntensity *
pulseFactor`, where `pulseFactor = 1.0 + 0.2*sin(time*3.0)` while
playing and `1.0` otherwise.  `Math.sin(time*3.0)` is abstracted as a
value `sinVal` with `-1 ≤ sinVal ≤ 1`. -/

/-- The style-level table of `updateVisualizationStyle` (line 978):
`const intensities = [0.3, 0.7, 1.2]`. -/
def intensities : List ℚ := [3/10, 7/10, 6/5]

/-- Model of `this.visualizationIntensity = intensities[style]` (line 979);
only indices 0..2 are ever passed (button cycling is mod 3 and the
load handler range-checks). -/
def styleMultiplier (style : Nat) : ℚ := intensities.getD style 0

/-- The low/high base pair written into `this.intensity` by every
signal path: `isPlaying ? 1.0 : 0.5`. -/
def baseIntensity (isPlaying : Bool) : ℚ := if isPlaying then 1 else 1/2

/-- The pulsing factor of `animate` (lines 1028-1032):
`1.0 + 0.2 * Math.sin(time * 3.0)` while playing, `1.0` while paused. -/
def pulseFactor (isPlaying : Bool) (sinVal : ℚ) : ℚ :=
  if isPlaying then 1 + (1/5) * sinVal else 1

/-- The per-frame uniform value of `animate` (lines 1025-1034):
`(this.intensity * this.visualizationIntensity) * pulseFactor`. -/
def frameIntensity (intensity styleMul : ℚ) (isPlaying : Bool)
    (sinVal : ℚ) : ℚ :=
  intensity * styleMul * pulseFactor isPlaying sinVal

/-- Invariant maintained by every reconciler path: `this.intensity`
holds the base pair selected by `this.isPlaying`. -/
def intensityInv (s : RState) : Prop :=
  s.intensity = baseIntensity s.isPlaying

/-- C4: every reconciler signal preserves the `intensity = base`
invariant, and under it the rendered per-frame value equals
`baseIntensity(isPlaying) * styleMultiplier(level) * pulse`, with base
pair 0.5/1.0, multipliers 0.3/0.7/1.2, and the bounded sinusoidal
pulse applied only while playing; the multipliers increase over levels
0→1→2 and the frame intensity is never negative. -/
theorem c4_shader_intensity (s : RState) (hs : intensityInv s)
    (style : Nat) (hstyle : style < 3) (sinVal : ℚ)
    (hlo : -1 ≤ sinVal) (hhi : sinVal ≤ 1) :
    (∀ sig, intensityInv (rstep s sig))
    ∧ frameIntensity s.intensity (styleMultiplier style) s.isPlaying sinVal
        = baseIntensity s.isPlaying * styleMultiplier style *
            pulseFactor s.isPlaying sinVal
    ∧ 0 ≤ frameIntensity s.intensity (styleMultiplier style)
            s.isPlaying sinVal
    ∧ styleMultiplier 0 < styleMultiplier 1
    ∧ styleMultiplier 1 < styleMultiplier 2 := by
  have hbase : (0 : ℚ) ≤ baseIntensity s.isPlaying := by
    unfold baseIntensity; split <;> norm_num
  have hmul : (0 : ℚ) ≤ styleMultiplier style := by
    interval_cases style <;> norm_num [styleMultiplier, intensities]
  have hpulse : (0 : ℚ) ≤ pulseFactor s.isPlaying sinVal := by
    unfold pulseFactor; split
    · nlinarith
    · norm_num
  refine ⟨?_, ?_, ?_, ?_, ?_⟩
  · intro sig
    cases sig with
    | controller isPaused =>
        simp [rstep, updatePlaybackStatus, intensityInv, baseIntensity]
    | message b =>
        simp [rstep, messageUpdate, updatePlaybackStatus, intensityInv,
          baseIntensity]
    | click t => simpa [rstep, intensityInv] using hs
    | mutation t reported =>
        by_cases hw : t - s.lastIframeClickTime < 3000
        · by_cases hv : reportedPlaying reported = s.lastPlaybackState
          · simpa [rstep, hw, hv, intensityInv] using hs
          · simp [rstep, hw, hv, messageUpdate, updatePlaybackStatus,
              intensityInv, baseIntensity]
        · simpa [rstep, hw, intensityInv] using hs
  · rw [intensityInv] at hs
    rw [hs]
    rfl
  · rw [intensityInv] at hs
    rw [frameIntensity, hs]
    exact mul_nonneg (mul_nonneg hbase hmul) hpulse
  · norm_num [styleMultiplier, intensities]
  · norm_num [styleMultiplier, intensities]

/-- Witness for C4 at a concrete state, style and sine value. -/
theorem c4_shader_intensity_witness :
    (∀ sig, intensityInv (rstep initR sig))
    ∧ frameIntensity initR.intensity (styleMultiplier 1) initR.isPlaying 0
        = baseIntensity initR.isPlaying * styleMultiplier 1 *
            pulseFactor initR.isPlaying 0
    ∧ 0 ≤ frameIntensity initR.intensity (styleMultiplier 1)
            initR.isPlaying 0
    ∧ styleMultiplier 0 < styleMultiplier 1
    ∧ styleMultiplier 1 < styleMultiplier 2 :=
  c4_shader_intensity initR (by norm_num [initR, intensityInv, baseIntensity])
    1 (by norm_num) 0 (by norm_num) (by norm_num)

/-! Cross-document message gate (the `message` listener installed by
`setupSpotifyAPI`, visualizer.js lines 319-350).  The origin check is
`event.origin.includes('spotify.com')`; the payload is pattern-matched
against three recognised shapes; everything else — including a
`player_state_changed` object without a `payload` (whose field access
throws and is swallowed by the surrounding `try`/`catch` before any
state was touched) — leaves the state unchanged and raises nothing. -/

/-- Character-list prefix test (used by the substring test below). -/
def charsHasPre : List Char → List Char → Bool
  | [], _ => true
  | _ :: _, [] => false
  | a :: as, b :: bs => a == b && charsHasPre as bs

/-- JavaScript `String.prototype.includes`: `pat` occurs contiguously
somewhere in `s`. -/
def strIncludes (pat s : String) : Bool :=
  (List.range (s.length + 1)).any (fun i => charsHasPre pat.data (s.data.drop i))

/-- The allow-list check of the listener (line 322):
`event.origin.includes('spotify.com')`. -/
def isSpotifyOrigin (origin : String) : Bool := strIncludes "spotify.com" origin

/-- The shapes a `message` event's `data` can take, as distinguished
by the listener (lines 326-344). -/
inductive MsgData where
  | playerStateChanged (paused : Bool)
  | playerStateChangedNoPayload
  | playbackUpdate (isPaused : Bool)
  | generic (playing : Bool)
  | unrecognizedObject
  | nonObject
deriving DecidableEq, Repr

/-- The playing boolean the listener extracts from a recognised shape
(`!payload.paused`, `!isPaused`, or `playing`); `none` for
unrecognised shapes. -/
def extractBool : MsgData → Option Bool
  | .playerStateChanged paused => some (!paused)
  | .playbackUpdate isPaused => some (!isPaused)
  | .generic playing => some playing
  | _ => none

/-- The `message` listener (lines 319-350): origin check, then shape
dispatch; a recognised shape updates intensity and playback state, an
unrecognised one (or a throwing field access, caught by the
`try`/`catch`) changes nothing. -/
def handleMessage (s : RState) (origin : String) (d : MsgData) : RState :=
  if isSpotifyOrigin origin then
    match d with
    | .playerStateChanged paused => messageUpdate s (!paused)
    | .playerStateChangedNoPayload => s
    | .playbackUpdate isPaused => messageUpdate s (!isPaused)
    | .generic playing => messageUpdate s playing
    | .unrecognizedObject => s
    | .nonObject => s
  else s

/-- C6: a message from an allow-listed origin whose payload matches
one of the three recognised shapes updates `isPlaying` and `intensity`
from the extracted boolean; a message from any other origin, or with
an unrecognised payload shape, leaves the state unchanged (and, the
handler being a total function with every field access guarded by the
listener's `try`/`catch`, raises no error). -/
theorem c6_message_gate (s : RState) (origin : String) (d : MsgData) :
    (∀ b, isSpotifyOrigin origin = true → extractBool d = some b →
        (handleMessage s origin d).isPlaying = b ∧
        (handleMessage s origin d).intensity = baseIntensity b)
    ∧ (isSpotifyOrigin origin = false ∨ extractBool d = none →
        handleMessage s origin d = s) := by
  constructor
  · intro b horig hext
    cases d <;> simp [extractBool] at hext <;> subst hext <;>
      simp [handleMessage, horig, messageUpdate, updatePlaybackStatus,
        baseIntensity]
  · rintro (horig | hext)
    · simp [handleMessage, horig]
    · cases d <;> simp [extractBool] at hext <;> simp [handleMessage]

/-- Witness for C6: a recognised `playback_update` message from
`open.spotify.com` sets playing; the same payload from another origin
is ignored. -/
theorem c6_message_gate_witness :
    ((handleMessage initR "https://open.spotify.com"
        (MsgData.playbackUpdate false)).isPlaying = true ∧
      (handleMessage initR "https://open.spotify.com"
        (MsgData.playbackUpdate false)).intensity = baseIntensity true)
    ∧ handleMessage initR "https://example.org"
        (MsgData.playbackUpdate false) = initR :=
  ⟨(c6_message_gate initR "https://open.spotify.com"
      (MsgData.playbackUpdate false)).1 true (by decide) rfl,
    (c6_message_gate initR "https://example.org"
      (MsgData.playbackUpdate false)).2 (Or.inl (by decide))⟩

end Viz

namespace Pref

/-!
Preference persistence (visualizer.js): `updateVisualizationStyle`
(lines 976-993) and `updateKaleidoscopePattern` (lines 1078-1094)
write the two `localStorage` keys; the `load` handler (lines
1628-1665) reads them back, `parseInt`s, range-checks and applies
them.  `localStorage` is modelled as a partial map from keys to
strings; `parseInt` as a partial decimal/hex parser returning `none`
for `NaN`.
-/

/-- The key-value preference store (`localStorage`). -/
def Store := String → Option String

/-- A storage with no keys set (a fresh session before any write). -/
def emptyStore : Store := fun _ => none

/-- Model of `localStorage.setItem`. -/
def setItem (st : Store) (k v : String) : Store :=
  fun q => if q = k then some v else st q

/-- Model of `localStorage.getItem` (returns `null` as `none`). -/
def getItem (st : Store) (k : String) : Option String := st k

/-- Decimal digit test for `parseInt`. -/
def isDigitCh (c : Char) : Bool := decide ('0' ≤ c ∧ c ≤ '9')

/-- Hexadecimal digit test for `parseInt`'s `0x` form. -/
def isHexDigitCh (c : Char) : Bool :=
  isDigitCh c || decide ('a' ≤ c ∧ c ≤ 'f') || decide ('A' ≤ c ∧ c ≤ 'F')

/-- Numeric value of a hexadecimal digit. -/
def hexDigitVal (c : Char) : Nat :=
  if isDigitCh c then c.toNat - '0'.toNat
  else if decide ('a' ≤ c ∧ c ≤ 'f') then c.toNat - 'a'.toNat + 10
  else c.toNat - 'A'.toNat + 10

/-- Value of a list of decimal digits. -/
def decValue (cs : List Char) : Nat :=
  cs.foldl (fun acc c => acc * 10 + (c.toNat - '0'.toNat)) 0

/-- Value of a list of hexadecimal digits. -/
def hexValue (cs : List Char) : Nat :=
  cs.foldl (fun acc c => acc * 16 + hexDigitVal c) 0

/-- Longest leading run of decimal digits; `none` when there is none
(`parseInt` yields `NaN`). -/
def leadingDec (cs : List Char) : Option Nat :=
  let ds := cs.takeWhile isDigitCh
  if ds.isEmpty then none else some (decValue ds)

/-- Leading magnitude for `parseInt` with inferred radix: a `0x`/`0X`
form is hexadecimal, anything else decimal; trailing garbage is
ignored. -/
def leadingNat (cs : List Char) : Option Nat :=
  match cs with
  | '0' :: x :: rest =>
      if x == 'x' || x == 'X' then
        let ds := rest.takeWhile isHexDigitCh
        if ds.isEmpty then none else some (hexValue ds)
      else leadingDec cs
  | _ => leadingDec cs

/-- JavaScript `parseInt(s)` (no radix argument): skip leading
whitespace, optional sign, then a decimal or `0x`-hexadecimal
magnitude; `none` models `NaN`. -/
def parseIntJS (s : String) : Option Int :=
  let cs := s.data.dropWhile
    (fun c => c == ' ' || c == '\t' || c == '\n' || c == '\r')
  match cs with
  | '-' :: rest => (leadingNat rest).map (fun n => -(n : Int))
  | '+' :: rest => (leadingNat rest).map (fun n => (n : Int))
  | _ => (leadingNat cs).map (fun n => (n : Int))

/-- The visualization configuration the two preferences reproduce:
the style multiplier written into `this.visualizationIntensity` and
the pattern id written into the `iKaleidoscopePattern` uniform. -/
structure VizConfig where
  visualizationIntensity : ℚ
  kaleidoscopePattern : Nat
deriving DecidableEq, Repr

/-- Constructor defaults (visualizer.js lines 15 and 26). -/
def defaultConfig : VizConfig :=
  { visualizationIntensity := 1, kaleidoscopePattern := 1 }

/-- Model of `Visualizer.updateVisualizationStyle` (lines 976-993): set
`visualizationIntensity` from the `[0.3, 0.7, 1.2]` table and persist
the style index under `wmp_viz_style`. -/
def updateVisualizationStyle (st : Store) (cfg : VizConfig)
    (style : Nat) : Store × VizConfig :=
  (setItem st "wmp_viz_style" (toString style),
   { cfg with visualizationIntensity := Viz.intensities.getD style 0 })

/-- Model of `Visualizer.updateKaleidoscopePattern` (lines 1078-1094): store
the pattern id, update the shader uniform, persist it under
`wmp_kaleido_pattern`. -/
def updateKaleidoscopePattern (st : Store) (cfg : VizConfig)
    (pattern : Nat) : Store × VizConfig :=
  (setItem st "wmp_kaleido_pattern" (toString pattern),
   { cfg with kaleidoscopePattern := pattern })

/-- The `load` handler (lines 1628-1665): read each key; when present,
`parseInt` it, and apply it through the corresponding update function
only when the parse is a number inside the valid range (`0..2` for the
style, `1..4` for the pattern); otherwise leave the defaults. -/
def restorePreferences (st : Store) (cfg : VizConfig) : Store × VizConfig :=
  let p1 :=
    match getItem st "wmp_viz_style" with
    | none => (st, cfg)
    | some savedStyle =>
        match parseIntJS savedStyle with
        | none => (st, cfg)
        | some i =>
            if 0 ≤ i ∧ i ≤ 2 then updateVisualizationStyle st cfg i.toNat
            else (st, cfg)
  match getItem p1.1 "wmp_kaleido_pattern" with
  | none => p1
  | some savedPattern =>
      match parseIntJS savedPattern with
      | none => p1
      | some i =>
          if 1 ≤ i ∧ i ≤ 4 then updateKaleidoscopePattern p1.1 p1.2 i.toNat
          else p1

/-- C5: writing a valid style index (0..2) and kaleidoscope pattern id
(1..4) and then loading in a new session reproduces exactly the
configuration the writes produced; an absent store restores the
defaults unchanged, and stored values that are non-numeric or out of
range are silently ignored. -/
theorem c5_preference_roundtrip (style pattern : Nat) (hs : style ≤ 2)
    (hp1 : 1 ≤ pattern) (hp2 : pattern ≤ 4) (st0 : Store)
    (cfg0 cfg1 : VizConfig) :
    ((restorePreferences
        (updateKaleidoscopePattern
          (updateVisualizationStyle st0 cfg0 style).1
          (updateVisualizationStyle st0 cfg0 style).2 pattern).1
        cfg1).2 =
      { visualizationIntensity := Viz.styleMultiplier style,
        kaleidoscopePattern := pattern })
    ∧ (restorePreferences emptyStore cfg1).2 = cfg1
    ∧ ∀ s1 s2 : String,
        (∀ i : Int, parseIntJS s1 = some i → ¬ (0 ≤ i ∧ i ≤ 2)) →
        (∀ i : Int, parseIntJS s2 = some i → ¬ (1 ≤ i ∧ i ≤ 4)) →
        (restorePreferences
          (setItem (setItem emptyStore "wmp_viz_style" s1)
            "wmp_kaleido_pattern" s2) cfg1).2 = cfg1 := by
  refine ⟨?_, rfl, ?_⟩
  · interval_cases style <;> interval_cases pattern <;> rfl
  · intro s1 s2 h1 h2
    have g1 : getItem (setItem (setItem emptyStore "wmp_viz_style" s1)
        "wmp_kaleido_pattern" s2) "wmp_viz_style" = some s1 := by
      simp [getItem, setItem, emptyStore]
    have g2 : getItem (setItem (setItem emptyStore "wmp_viz_style" s1)
        "wmp_kaleido_pattern" s2) "wmp_kaleido_pattern" = some s2 := by
      simp [getItem, setItem, emptyStore]
    unfold restorePreferences
    rw [g1]
    cases hp : parseIntJS s1 with
    | none =>
        simp only [hp]
        rw [g2]
        cases hq : parseIntJS s2 with
        | none => simp only [hq]
        | some j => simp only [hq]; rw [if_neg (h2 j hq)]
    | some i =>
        simp only [hp]
        rw [if_neg (h1 i hp)]
        rw [g2]
        cases hq : parseIntJS s2 with
        | none => simp only [hq]
        | some j => simp only [hq]; rw [if_neg (h2 j hq)]

/-- Witness for C5: style 2 and pattern 3 round-trip; the corrupt
strings "banana" and "7" are ignored. -/
theorem c5_preference_roundtrip_witness :
    ((restorePreferences
        (updateKaleidoscopePattern
          (updateVisualizationStyle emptyStore defaultConfig 2).1
          (updateVisualizationStyle emptyStore defaultConfig 2).2 3).1
        defaultConfig).2 =
      { visualizationIntensity := Viz.styleMultiplier 2,
        kaleidoscopePattern := 3 })
    ∧ (restorePreferences
        (setItem (setItem emptyStore "wmp_viz_style" "banana")
          "wmp_kaleido_pattern" "7") defaultConfig).2 = defaultConfig := by
  have h := c5_preference_roundtrip 2 3 (by norm_num) (by norm_num)
    (by norm_num) emptyStore defaultConfig defaultConfig
  refine ⟨h.1, h.2.2 "banana" "7" ?_ ?_⟩
  · intro i hi
    simp [parseIntJS, leadingNat, leadingDec, isDigitCh] at hi
  · intro i hi
    have : i = 7 := by
      have : parseIntJS "7" = some 7 := by decide
      rw [this] at hi
      exact (Option.some.injEq _ _ ▸ hi).symm
    subst this
    decide

end Pref

namespace XPlay

/-!
The play primitive of the global `window.soundManager`
(src/sounds/windowsXPSounds.js, lines 31-67), shared between the two
sound layers: `SoundManager.play` delegates to it for sounds the
global manager owns. -/

/-- The sound table of windowsXPSounds.js (lines 11-20). -/
def xpSoundNames : List String :=
  ["error", "critical", "exclamation", "ding", "notify", "minimize", "tada"]

/-- The `this.sounds[soundName]` lookup in windowsXPSounds.js. -/
def xpHasSound (name : String) : Bool := xpSoundNames.contains name

/-- Model of `window.soundManager.play` (windowsXPSounds.js lines 31-67):
when sounds are disabled or `window.preventAllSounds` is set, return
false — except that a `critical` request overrides the prevention (but
not a disabled manager); then return whether the sound exists (a
successful `Audio.play` call returns true). -/
def xpPlay (enabled preventAll : Bool) (name : String) : Bool :=
  if !enabled || preventAll then
    if preventAll && !(name == "critical") then false
    else if !enabled then false
    else xpHasSound name
  else xpHasSound name

end XPlay

namespace SM

open XPlay

/-!
The `SoundManager` class (src/sounds/SoundManager.js).  One window
element is in scope (all markers are per-window `dataset` attributes);
`this.activeWindows` is the class's own set, distinct from the global
manager's.  `setTimeout` callbacks are a pending list of
`(absolute time, action)` pairs; before each delivered request every
due timer fires (at most once, in scheduling order — all the actions
below commute, so the order is immaterial). -/

/-- Timer callbacks scheduled by `SoundManager.playForWindow`. -/
inductive SMTimer where
  /-- the 1500 ms callback of lines 158-163: clears both
  `closingInProgress` and `criticalSoundPlayed` -/
  | clearClosing
  /-- the `duration` callback of lines 185-189: clears `soundPlayed` -/
  | clearSoundPlayed
  /-- the 1000 ms callback of `addActiveWindow` (lines 97-99) -/
  | removeActive (id : String)
deriving DecidableEq, Repr

/-- The per-window `dataset` markers (truthy `'true'` vs falsy
`''`/absent). -/
structure SMFlags where
  initialWindow : Bool
  soundPlayed : Bool
  closingInProgress : Bool
  criticalSoundPlayed : Bool
deriving DecidableEq, Repr

/-- State of a `SoundManager` together with the flags of the window
under consideration and the global-manager context it delegates to. -/
structure SMState where
  /-- `this.enabled` of the `SoundManager` instance -/
  enabled : Bool
  /-- whether `window.soundManager` (windowsXPSounds.js) exists -/
  xpManagerExists : Bool
  /-- `window.soundManager.enabled` -/
  xpEnabled : Bool
  /-- `window.preventAllSounds` -/
  preventAllSounds : Bool
  /-- `this.activeWindows` of the `SoundManager` instance -/
  activeWindows : List String
  /-- `windowElement.id` (`""` when the element has no id) -/
  winId : String
  flags : SMFlags
  pending : List (Nat × SMTimer)
deriving DecidableEq, Repr

/-- The sound table of `SoundManager.init` (lines 20-52). -/
def smSoundNames : List String :=
  ["startup", "shutdown", "error", "exclamation", "ding", "notify",
   "windowOpen", "windowClose", "maximize", "minimize", "click",
   "navigate", "critical", "mediaPlay", "mediaPause", "mediaStop",
   "mediaNext", "mediaPrev", "logon", "logoff", "recycle", "restore",
   "balloon", "question", "hardwareInsert", "hardwareRemove"]

/-- The `this.sounds[soundName]` lookup in SoundManager.js. -/
def smHasSound (name : String) : Bool := smSoundNames.contains name

/-- Model of `SoundManager.play` (SoundManager.js lines 200-230): refuse when
disabled; delegate to `window.soundManager.play` when it exists and
owns the sound; otherwise play the own `Audio` element, returning
whether it exists. -/
def smPlay (st : SMState) (name : String) : Bool :=
  if !st.enabled then false
  else if st.xpManagerExists && xpHasSound name then
    xpPlay st.xpEnabled st.preventAllSounds name
  else if !(smHasSound name) then false
  else true

/-- Run one scheduled timer callback. -/
def applySMTimer (st : SMState) : SMTimer → SMState
  | .clearClosing =>
      { st with flags := { st.flags with closingInProgress := false,
                                         criticalSoundPlayed := false } }
  | .clearSoundPlayed =>
      { st with flags := { st.flags with soundPlayed := false } }
  | .removeActive id =>
      { st with activeWindows := st.activeWindows.filter (fun w => !(w == id)) }

/-- Fire every pending timer that is due at `now` (none of the
`SoundManager` callbacks schedules further timers, so one pass
suffices). -/
def fireDue (now : Nat) (st : SMState) : SMState :=
  let due := st.pending.filter (fun p => decide (p.1 ≤ now))
  let rest := st.pending.filter (fun p => decide (now < p.1))
  due.foldl (fun s p => applySMTimer s p.2) { st with pending := rest }

/-- The tail of `playForWindow` after the close-sound special case
(lines 166-191): suppress when the window's channel is active and the
sound is not close-like; otherwise play, mark the channel active for
1000 ms, and set `soundPlayed` for `duration` ms. -/
def playTail (st : SMState) (name : String) (dur now : Nat) : Bool × SMState :=
  if !(st.winId == "") && st.activeWindows.contains st.winId &&
      !(name == "windowClose") && !(name == "critical") then
    (false, st)
  else
    let r := smPlay st name
    let st :=
      if !(st.winId == "") then
        { st with activeWindows := st.winId :: st.activeWindows,
                  pending := st.pending ++ [(now + 1000, SMTimer.removeActive st.winId)] }
      else st
    let st := { st with flags := { st.flags with soundPlayed := true },
                        pending := st.pending ++ [(now + dur, SMTimer.clearSoundPlayed)] }
    (r, st)

/-- Model of `SoundManager.playForWindow` (SoundManager.js lines 119-192).
With a null window element it is exactly `this.play` (line 120).
Otherwise, for `windowClose`/`critical`: clear the initial-window
marker and a stale `soundPlayed` marker, suppress when a close is
already in progress, suppress `windowClose` when the global manager's
`critical` already played for this window, and otherwise mark the
close in progress (plus `criticalSoundPlayed` for `critical`) with a
1500 ms expiry; then fall through to the common tail. -/
def playForWindow (st : SMState) (windowPresent : Bool) (name : String)
    (dur now : Nat) : Bool × SMState :=
  if !windowPresent then (smPlay st name, st)
  else if name == "windowClose" || name == "critical" then
    let fl0 := { st.flags with initialWindow := false }
    let fl1 := if fl0.soundPlayed then { fl0 with soundPlayed := false } else fl0
    if fl1.closingInProgress then (false, { st with flags := fl1 })
    else if st.xpManagerExists && name == "windowClose" &&
        fl1.criticalSoundPlayed then
      (false, { st with flags := fl1 })
    else
      let fl2 := { fl1 with closingInProgress := true }
      let fl3 :=
        if name == "critical" then { fl2 with criticalSoundPlayed := true }
        else fl2
      playTail { st with flags := fl3,
                         pending := st.pending ++ [(now + 1500, SMTimer.clearClosing)] }
        name dur now
  else playTail st name dur now

/-- A request delivered to `playForWindow` for the window in scope. -/
structure Req where
  time : Nat
  name : String
  dur : Nat
deriving DecidableEq, Repr

/-- Deliver a list of requests on the event loop: before each call
the due timers fire, then `playForWindow` runs.  Returns the list of
played/suppressed results. -/
def runReqs (st : SMState) : List Req → List Bool × SMState
  | [] => ([], st)
  | r :: rs =>
      let out := playForWindow (fireDue r.time st) true r.name r.dur r.time
      let rest := runReqs out.2 rs
      (out.1 :: rest.1, rest.2)

theorem foldl_applySMTimer_fields (l : List (Nat × SMTimer)) (st : SMState) :
    (l.foldl (fun s p => applySMTimer s p.2) st).enabled = st.enabled
    ∧ (l.foldl (fun s p => applySMTimer s p.2) st).xpManagerExists
        = st.xpManagerExists
    ∧ (l.foldl (fun s p => applySMTimer s p.2) st).xpEnabled = st.xpEnabled
    ∧ (l.foldl (fun s p => applySMTimer s p.2) st).preventAllSounds
        = st.preventAllSounds
    ∧ (l.foldl (fun s p => applySMTimer s p.2) st).winId = st.winId
    ∧ (l.foldl (fun s p => applySMTimer s p.2) st).pending = st.pending := by
  induction l generalizing st with
  | nil => exact ⟨rfl, rfl, rfl, rfl, rfl, rfl⟩
  | cons p rest ih =>
      have hstep : (applySMTimer st p.2).enabled = st.enabled
          ∧ (applySMTimer st p.2).xpManagerExists = st.xpManagerExists
          ∧ (applySMTimer st p.2).xpEnabled = st.xpEnabled
          ∧ (applySMTimer st p.2).preventAllSounds = st.preventAllSounds
          ∧ (applySMTimer st p.2).winId = st.winId
          ∧ (applySMTimer st p.2).pending = st.pending := by
        cases p.2 <;> simp [applySMTimer]
      have h := ih (applySMTimer st p.2)
      simp only [List.foldl_cons]
      exact ⟨h.1.trans hstep.1, h.2.1.trans hstep.2.1,
        h.2.2.1.trans hstep.2.2.1, h.2.2.2.1.trans hstep.2.2.2.1,
        h.2.2.2.2.1.trans hstep.2.2.2.2.1, h.2.2.2.2.2.trans hstep.2.2.2.2.2⟩

theorem foldl_applySMTimer_close (l : List (Nat × SMTimer)) (st : SMState)
    (h : ∀ p ∈ l, p.2 ≠ SMTimer.clearClosing) :
    (l.foldl (fun s p => applySMTimer s p.2) st).flags.closingInProgress
        = st.flags.closingInProgress
    ∧ (l.foldl (fun s p => applySMTimer s p.2) st).flags.criticalSoundPlayed
        = st.flags.criticalSoundPlayed := by
  induction l generalizing st with
  | nil => exact ⟨rfl, rfl⟩
  | cons p rest ih =>
      have hp : p.2 ≠ SMTimer.clearClosing := h p (List.mem_cons_self p rest)
      have hstep : (applySMTimer st p.2).flags.closingInProgress
            = st.flags.closingInProgress
          ∧ (applySMTimer st p.2).flags.criticalSoundPlayed
            = st.flags.criticalSoundPlayed := by
        cases hp2 : p.2 with
        | clearClosing => exact absurd hp2 hp
        | clearSoundPlayed => simp [applySMTimer]
        | removeActive id => simp [applySMTimer]
      have hrest := ih (applySMTimer st p.2)
        (fun q hq => h q (List.mem_cons_of_mem p hq))
      simp only [List.foldl_cons]
      exact ⟨hrest.1.trans hstep.1, hrest.2.trans hstep.2⟩

theorem fireDue_fields (now : Nat) (st : SMState)
    (h : ∀ p ∈ st.pending, p.2 = SMTimer.clearClosing → now < p.1) :
    (fireDue now st).flags.closingInProgress = st.flags.closingInProgress
    ∧ (fireDue now st).flags.criticalSoundPlayed
        = st.flags.criticalSoundPlayed
    ∧ (fireDue now st).enabled = st.enabled
    ∧ (fireDue now st).xpManagerExists = st.xpManagerExists
    ∧ (fireDue now st).xpEnabled = st.xpEnabled
    ∧ ∀ p ∈ (fireDue now st).pending, p ∈ st.pending := by
  have hdue : ∀ p ∈ st.pending.filter (fun p => decide (p.1 ≤ now)),
      p.2 ≠ SMTimer.clearClosing := by
    intro p hp hcc
    have hm := List.mem_filter.mp hp
    have hle : p.1 ≤ now := of_decide_eq_true hm.2
    exact absurd (h p hm.1 hcc) (by omega)
  have key : fireDue now st =
      List.foldl (fun s p => applySMTimer s p.2)
        { st with pending := st.pending.filter (fun p => decide (now < p.1)) }
        (st.pending.filter (fun p => decide (p.1 ≤ now))) := rfl
  have hc := foldl_applySMTimer_close
    (st.pending.filter (fun p => decide (p.1 ≤ now)))
    { st with pending := st.pending.filter (fun p => decide (now < p.1)) }
    hdue
  have hf := foldl_applySMTimer_fields
    (st.pending.filter (fun p => decide (p.1 ≤ now)))
    { st with pending := st.pending.filter (fun p => decide (now < p.1)) }
  rw [key]
  refine ⟨hc.1, hc.2, hf.1, hf.2.1, hf.2.2.1, ?_⟩
  intro p hp
  rw [hf.2.2.2.2.2] at hp
  exact (List.mem_filter.mp hp).1

/-- Invariant of a close action in progress: the closing marker is set
and every pending timer that would clear it fires at or after `T`. -/
def closingLocked (T : Nat) (st : SMState) : Prop :=
  st.flags.closingInProgress = true ∧
    ∀ p ∈ st.pending, p.2 = SMTimer.clearClosing → T ≤ p.1

theorem fireDue_closingLocked {T now : Nat} {st : SMState}
    (h : closingLocked T st) (hn : now < T) :
    closingLocked T (fireDue now st) := by
  have hfd := fireDue_fields now st
    (fun p hp hcc => by have := h.2 p hp hcc; omega)
  exact ⟨hfd.1.trans h.1, fun p hp hcc => h.2 p (hfd.2.2.2.2.2 p hp) hcc⟩

theorem playForWindow_suppressed {st : SMState} {name : String}
    {dur now : Nat} (hc : st.flags.closingInProgress = true)
    (hn : name = "windowClose" ∨ name = "critical") :
    (playForWindow st true name dur now).1 = false
    ∧ (playForWindow st true name dur now).2.flags.closingInProgress = true
    ∧ (playForWindow st true name dur now).2.pending = st.pending := by
  rcases hn with hn | hn <;> subst hn <;>
    by_cases hsp : st.flags.soundPlayed <;>
      simp [playForWindow, hc, hsp]

theorem runReqs_locked {T : Nat} {rs : List Req} {st : SMState}
    (h : closingLocked T st)
    (hrs : ∀ r ∈ rs, (r.name = "windowClose" ∨ r.name = "critical")
        ∧ r.time < T) :
    (runReqs st rs).1 = List.replicate rs.length false := by
  induction rs generalizing st with
  | nil => rfl
  | cons r rest ih =>
      have hr := hrs r (List.mem_cons_self r rest)
      have hlock : closingLocked T (fireDue r.time st) :=
        fireDue_closingLocked h hr.2
      have hsup := @playForWindow_suppressed (fireDue r.time st) r.name
        r.dur r.time hlock.1 hr.1
      have hlock' : closingLocked T
          (playForWindow (fireDue r.time st) true r.name r.dur r.time).2 := by
        refine ⟨hsup.2.1, ?_⟩
        rw [hsup.2.2]
        exact hlock.2
      have := ih hlock' (fun q hq => hrs q (List.mem_cons_of_mem r hq))
      simp only [runReqs, hsup.1, this, List.length_cons, List.replicate_succ]

theorem fireDue_empty {now : Nat} {st : SMState} (hp : st.pending = []) :
    fireDue now st = st := by
  cases st
  simp only at hp
  subst hp
  simp [fireDue]

theorem playForWindow_first {st : SMState} {name : String} {dur now : Nat}
    (hen : st.enabled = true) (hxpe : st.xpEnabled = true)
    (hcl : st.flags.closingInProgress = false)
    (hcr : st.flags.criticalSoundPlayed = false)
    (hp : st.pending = [])
    (hn : name = "windowClose" ∨ name = "critical") :
    (playForWindow st true name dur now).1 = true
    ∧ closingLocked (now + 1500) (playForWindow st true name dur now).2 := by
  have hxplay : ∀ b : Bool, xpPlay true b "critical" = true := by
    intro b
    cases b <;> rfl
  rcases hn with hn | hn <;> subst hn <;>
    by_cases hsp : st.flags.soundPlayed <;>
    by_cases hid : st.winId = "" <;>
    by_cases hxm : st.xpManagerExists <;>
    simp [playForWindow, playTail, smPlay, hcl, hcr, hen, hxpe, hsp, hid,
      hxm, hp, hxplay, closingLocked, xpHasSound, xpSoundNames, smHasSound,
      smSoundNames]

/-- C1: within one logical close action — a first `windowClose` or
`critical` request at time `t1` followed by any close-sound requests
arriving before the 1500 ms closing-in-progress grace period expires —
exactly the first request plays the sound (given a fresh action state:
no close in progress, no pending grace timer, sounds enabled) and
every subsequent request is suppressed. -/
theorem c1_close_sound_dedup (t1 : Nat) (n1 : String) (d1 : Nat)
    (rs : List Req) (st : SMState)
    (hn1 : n1 = "windowClose" ∨ n1 = "critical")
    (hrs : ∀ r ∈ rs, (r.name = "windowClose" ∨ r.name = "critical")
        ∧ r.time < t1 + 1500)
    (hen : st.enabled = true) (hxpe : st.xpEnabled = true)
    (hcl : st.flags.closingInProgress = false)
    (hcr : st.flags.criticalSoundPlayed = false)
    (hp : st.pending = []) :
    (runReqs st ({ time := t1, name := n1, dur := d1 } :: rs)).1
      = true :: List.replicate rs.length false := by
  have hfd : fireDue t1 st = st := fireDue_empty hp
  have hfirst := @playForWindow_first st n1 d1 t1
    hen hxpe hcl hcr hp hn1
  simp only [runReqs, hfd]
  rw [hfirst.1, runReqs_locked hfirst.2 hrs]

/-- A window state at the start of a logical close action: an
initially loaded window (initial markers still set), both managers
enabled, nothing pending. -/
def cleanState : SMState :=
  { enabled := true, xpManagerExists := true, xpEnabled := true,
    preventAllSounds := false, activeWindows := [], winId := "wmp-window",
    flags := { initialWindow := true, soundPlayed := true,
               closingInProgress := false, criticalSoundPlayed := false },
    pending := [] }

/-- Witness for C1: a `critical` at t = 0 followed by a `windowClose`
at t = 100 and another `critical` at t = 1200 — only the first plays. -/
theorem c1_close_sound_dedup_witness :
    (runReqs cleanState
      [{ time := 0, name := "critical", dur := 2000 },
       { time := 100, name := "windowClose", dur := 1500 },
       { time := 1200, name := "critical", dur := 2000 }]).1
      = [true, false, false] := by
  have h := c1_close_sound_dedup 0 "critical" 2000
    [{ time := 100, name := "windowClose", dur := 1500 },
     { time := 1200, name := "critical", dur := 2000 }]
    cleanState (Or.inr rfl) ?_ rfl rfl rfl rfl rfl
  · simpa using h
  · intro r hr
    fin_cases hr
    · exact ⟨Or.inl rfl, by norm_num⟩
    · exact ⟨Or.inr rfl, by norm_num⟩

/-- C8: a `windowClose` request through `playForWindow` for a window
whose `criticalSoundPlayed` marker is still set (its clearing timer,
shared with the closing grace period, has not yet fired) is suppressed
and returns not-played, whatever else is in flight. -/
theorem c8_windowclose_after_critical (st : SMState) (dur now : Nat)
    (hcr : st.flags.criticalSoundPlayed = true)
    (hxp : st.xpManagerExists = true)
    (hnd : ∀ p ∈ st.pending, p.2 = SMTimer.clearClosing → now < p.1) :
    (playForWindow (fireDue now st) true "windowClose" dur now).1 = false := by
  have hfd := fireDue_fields now st hnd
  have hcr' : (fireDue now st).flags.criticalSoundPlayed = true :=
    hfd.2.1.trans hcr
  have hxp' : (fireDue now st).xpManagerExists = true :=
    hfd.2.2.2.1.trans hxp
  by_cases hcl : (fireDue now st).flags.closingInProgress = true <;>
    by_cases hsp : (fireDue now st).flags.soundPlayed <;>
      simp [playForWindow, hcl, hsp, hcr', hxp']

/-- The state right after `playForWindow cleanState true "critical"`:
closing and critical markers set, their shared clearing timer pending
at t = 1500. -/
def afterCritical : SMState :=
  (playForWindow cleanState true "critical" 2000 0).2

/-- Witness for C8: after the `critical` play at t = 0, a
`windowClose` at t = 100 is suppressed. -/
theorem c8_windowclose_after_critical_witness :
    (playForWindow (fireDue 100 afterCritical) true "windowClose" 1500 100).1
      = false := by
  refine c8_windowclose_after_critical afterCritical 1500 100 (by decide)
    (by decide) ?_
  intro p hp
  fin_cases hp <;> decide

/-- The concrete situation refuting C9 as stated: sounds enabled on
the `SoundManager` instance and on the global manager, the sound
(`notify`) exists, but a close operation's `preventAllSounds` window
is open, so the delegated play is refused. -/
def preventedState : SMState :=
  { enabled := true, xpManagerExists := true, xpEnabled := true,
    preventAllSounds := true, activeWindows := [], winId := "",
    flags := { initialWindow := false, soundPlayed := false,
               closingInProgress := false, criticalSoundPlayed := false },
    pending := [] }

/-- C9: the claim as stated is false.  With a null window element,
`playForWindow` is plain `play`; but `play` delegates `notify` to the
global `window.soundManager`, whose `preventAllSounds` guard refuses
non-critical sounds — so the call does NOT play even though sounds are
enabled and the sound exists. -/
theorem c9_null_window_counterexample :
    preventedState.enabled = true ∧ smHasSound "notify" = true ∧
      (playForWindow preventedState false "notify" 1000 0).1 = false := by
  decide

/-- C9 (amended): `playForWindow` with a null window element is
exactly plain `play(soundName, volume)`: it bypasses every
de-duplication check (the result does not depend on any per-window
marker or on the active-channel set), and it plays whenever sounds are
enabled and the sound exists — provided that, when the global sound
manager exists and owns the sound, that manager is itself enabled and
not inside a close-prevention window (unless the sound is
`critical`).  The third conjunct characterises the play outcome in
every case: with the global manager present and owning the sound, the
result is exactly `enabled && xpEnabled && (no prevention ∨ critical)`
(existence is the ownership); with no manager, or a manager that does
not own the sound, it is exactly `enabled && sound exists`. -/
theorem c9_null_window_amended (st : SMState) (name : String)
    (dur now : Nat) :
    playForWindow st false name dur now = (smPlay st name, st)
    ∧ (∀ fl aw, smPlay { st with flags := fl, activeWindows := aw } name
        = smPlay st name)
    ∧ smPlay st name =
        (st.enabled &&
          (if st.xpManagerExists && xpHasSound name then
            st.xpEnabled &&
              (!st.preventAllSounds || (name == "critical"))
           else smHasSound name)) := by
  refine ⟨rfl, fun fl aw => rfl, ?_⟩
  cases hen : st.enabled <;>
    cases hxm : st.xpManagerExists <;>
    cases hxe : st.xpEnabled <;>
    cases hpa : st.preventAllSounds <;>
    cases hxs : xpHasSound name <;>
    cases hsm : smHasSound name <;>
    by_cases hcr : (name == "critical") = true <;>
    simp [smPlay, XPlay.xpPlay, hen, hxm, hxe, hpa, hxs, hsm, hcr]

/-- A state with no global manager, used to witness the amended C9. -/
def noDelegateState : SMState :=
  { enabled := true, xpManagerExists := false, xpEnabled := true,
    preventAllSounds := false, activeWindows := [], winId := "",
    flags := { initialWindow := false, soundPlayed := false,
               closingInProgress := false, criticalSoundPlayed := false },
    pending := [] }

/-- Witness for the amended C9, exercising each case of the
characterisation: the manager-present-and-owning case both inside a
prevention window (`preventedState`, `notify` refused) and with the
provisos satisfied (`cleanState`, `notify` plays), the
manager-present-but-not-owning case (`windowClose`, played from the
`SoundManager`'s own table), and the no-manager case
(`noDelegateState`); plus the null-window equivalence and the
independence from all per-window markers. -/
theorem c9_null_window_amended_witness :
    playForWindow preventedState false "notify" 1000 0
      = (smPlay preventedState "notify", preventedState)
    ∧ smPlay { preventedState with
        flags := { initialWindow := true, soundPlayed := true,
                   closingInProgress := true, criticalSoundPlayed := true },
        activeWindows := ["wmp-window"] } "notify"
      = smPlay preventedState "notify"
    ∧ smPlay preventedState "notify"
      = (preventedState.enabled &&
          (if preventedState.xpManagerExists && xpHasSound "notify" then
            preventedState.xpEnabled &&
              (!preventedState.preventAllSounds || ("notify" == "critical"))
           else smHasSound "notify"))
    ∧ smPlay cleanState "notify"
      = (cleanState.enabled &&
          (if cleanState.xpManagerExists && xpHasSound "notify" then
            cleanState.xpEnabled &&
              (!cleanState.preventAllSounds || ("notify" == "critical"))
           else smHasSound "notify"))
    ∧ smPlay cleanState "windowClose"
      = (cleanState.enabled &&
          (if cleanState.xpManagerExists && xpHasSound "windowClose" then
            cleanState.xpEnabled &&
              (!cleanState.preventAllSounds || ("windowClose" == "critical"))
           else smHasSound "windowClose"))
    ∧ smPlay noDelegateState "notify"
      = (noDelegateState.enabled &&
          (if noDelegateState.xpManagerExists && xpHasSound "notify" then
            noDelegateState.xpEnabled &&
              (!noDelegateState.preventAllSounds || ("notify" == "critical"))
           else smHasSound "notify")) := by
  have h1 := c9_null_window_amended preventedState "notify" 1000 0
  have h2 := c9_null_window_amended cleanState "notify" 1000 0
  have h3 := c9_null_window_amended cleanState "windowClose" 1000 0
  have h4 := c9_null_window_amended noDelegateState "notify" 1000 0
  exact ⟨h1.1,
    h1.2.1 { initialWindow := true, soundPlayed := true,
             closingInProgress := true, criticalSoundPlayed := true }
      ["wmp-window"],
    h1.2.2, h2.2.2, h3.2.2, h4.2.2⟩

end SM

namespace XP

open XPlay

/-!
The window-sound layer of windowsXPSounds.js (`setupWindowsSounds`,
lines 90-495): initial-window marking, the `playSoundForWindow`
helper, the close-button handler and the window-visibility
`MutationObserver`.  One window (`.window` element) is in scope.
-/

/-- Timer callbacks scheduled in windowsXPSounds.js. -/
inductive XPTimer where
  /-- the 3000 ms load timer (lines 115-127): for windows still marked
  initial, clear the initial flag and schedule the `soundPlayed` clear
  500 ms later -/
  | clearInitialFlags
  /-- the `duration` (or nested 500 ms / observer 800 ms) callback
  clearing `soundPlayed` -/
  | clearSoundPlayed
  /-- the 1500 ms callback of lines 152-156 clearing
  `closingInProgress` -/
  | clearClosing
  /-- the 1000 ms callback of `addActiveWindow` (lines 78-80) -/
  | removeActive (id : String)
  /-- the 500 ms callbacks resetting `recentWindowControlAction` -/
  | clearRecentAction
  /-- the close handler's 1000 ms callback (lines 214-217) resetting
  `recentWindowControlAction` and `window.preventAllSounds` -/
  | clearRecentAndPrevent
deriving DecidableEq, Repr

/-- The observed window: its id, `dataset` markers and visibility
(`classList.contains('minimized')`, `style.display === 'none'`). -/
structure XPWin where
  id : String
  initialWindow : Bool
  soundPlayed : Bool
  closingInProgress : Bool
  minimized : Bool
  displayNone : Bool
deriving DecidableEq, Repr

/-- State of the windowsXPSounds layer: the global manager's
`enabled` flag and `activeWindows` set, `window.preventAllSounds`,
the closure variables `recentWindowControlAction` and
`lastSoundWindow` of `setupWindowsSounds`, the observed window and the
pending timers. -/
structure XPState where
  enabled : Bool
  preventAllSounds : Bool
  recentAction : Bool
  lastSoundWindow : Option String
  activeWindows : List String
  win : XPWin
  pending : List (Nat × XPTimer)
deriving DecidableEq, Repr

/-- Run one timer callback, at its own scheduled time `fireTime` (the
3000 ms callback re-selects windows still marked initial, hence the
guard, and schedules the nested 500 ms clear relative to its own
firing time). -/
def applyXPTimer (fireTime : Nat) (st : XPState) : XPTimer → XPState
  | .clearInitialFlags =>
      if st.win.initialWindow then
        { st with win := { st.win with initialWindow := false },
                  pending := st.pending ++
                    [(fireTime + 500, XPTimer.clearSoundPlayed)] }
      else st
  | .clearSoundPlayed =>
      { st with win := { st.win with soundPlayed := false } }
  | .clearClosing =>
      { st with win := { st.win with closingInProgress := false } }
  | .removeActive id =>
      { st with activeWindows := st.activeWindows.filter (fun w => !(w == id)) }
  | .clearRecentAction => { st with recentAction := false }
  | .clearRecentAndPrevent =>
      { st with recentAction := false, preventAllSounds := false }

/-- One pass over the pending timers: fire the due ones (each at its
own scheduled time) and keep the rest. -/
def firePass (now : Nat) (st : XPState) : XPState :=
  let due := st.pending.filter (fun p => decide (p.1 ≤ now))
  let rest := st.pending.filter (fun p => decide (now < p.1))
  due.foldl (fun s p => applyXPTimer p.1 s p.2) { st with pending := rest }

/-- Fire every timer due at `now`.  Only `clearInitialFlags` schedules
a nested timer, and the nested one schedules nothing, so two passes
fire everything due; all the callbacks commute, so the pass order is
faithful to the event loop. -/
def fireDueXP (now : Nat) (st : XPState) : XPState :=
  firePass now (firePass now st)

/-- The tail of `playSoundForWindow` (windowsXPSounds.js lines
159-184): suppress while the window's channel is active (unless the
sound is `critical`); otherwise play via the global manager, mark the
channel active for 1000 ms, record `lastSoundWindow`, and set the
`soundPlayed` marker for `duration` ms. -/
def xpPlayTail (st : XPState) (name : String) (dur now : Nat) :
    Bool × XPState :=
  if !(st.win.id == "") && st.activeWindows.contains st.win.id &&
      !(name == "critical") then
    (false, st)
  else
    let r := xpPlay st.enabled st.preventAllSounds name
    let st :=
      if !(st.win.id == "") then
        { st with activeWindows := st.win.id :: st.activeWindows,
                  pending := st.pending ++
                    [(now + 1000, XPTimer.removeActive st.win.id)],
                  lastSoundWindow := some st.win.id }
      else st
    { fst := r,
      snd := { st with win := { st.win with soundPlayed := true },
                       pending := st.pending ++
                         [(now + dur, XPTimer.clearSoundPlayed)] } }

/-- Model of `playSoundForWindow` (windowsXPSounds.js lines 130-185): for
`critical`, clear the initial-window marker and a stale `soundPlayed`
marker, suppress when a close is already in progress, otherwise set
`closingInProgress` with a 1500 ms expiry; then the common tail. -/
def playSoundForWindowXP (st : XPState) (name : String) (dur now : Nat) :
    Bool × XPState :=
  if name == "critical" then
    let w0 := { st.win with initialWindow := false }
    let w1 := if w0.soundPlayed then { w0 with soundPlayed := false } else w0
    if w1.closingInProgress then (false, { st with win := w1 })
    else
      xpPlayTail
        { st with win := { w1 with closingInProgress := true },
                  pending := st.pending ++
                    [(now + 1500, XPTimer.clearClosing)] }
        name dur now
  else xpPlayTail st name dur now

/-- One delivery of the window-visibility `MutationObserver` callback
(windowsXPSounds.js lines 422-479) for an attribute mutation on the
observed window, after firing due timers.  Skips while a control
action is recent or sounds are prevented, for the window that last
played, and for a window with an active channel; for a visible window
without a fresh `soundPlayed` marker, an initially-visible window only
consumes its marker (no sound, `soundPlayed` set for 800 ms), any
other window plays the `notify` sound. -/
def observerMutation (st0 : XPState) (now : Nat) : Bool × XPState :=
  let st := fireDueXP now st0
  if st.recentAction || st.preventAllSounds then (false, st)
  else if st.preventAllSounds then (false, st)
  else if some st.win.id == st.lastSoundWindow then (false, st)
  else if !(st.win.id == "") && st.activeWindows.contains st.win.id then
    (false, st)
  else if !st.win.minimized && !st.win.displayNone && !st.win.soundPlayed then
    if st.win.initialWindow then
      (false,
        { st with win := { st.win with initialWindow := false,
                                       soundPlayed := true },
                  pending := st.pending ++
                    [(now + 800, XPTimer.clearSoundPlayed)] })
    else playSoundForWindowXP st "notify" 800 now
  else (false, st)

/-- The close-button click handler (windowsXPSounds.js lines
192-218): clear the initial-window markers, set
`recentWindowControlAction` and `window.preventAllSounds`, play the
`critical` sound through `playSoundForWindow`, and schedule the reset
of both flags 1000 ms later. -/
def closeClick (st0 : XPState) (now : Nat) : Bool × XPState :=
  let st := fireDueXP now st0
  let st :=
    if st.win.initialWindow then
      { st with win := { st.win with initialWindow := false,
                                     soundPlayed := false } }
    else st
  let st := { st with recentAction := true, preventAllSounds := true }
  let out := playSoundForWindowXP st "critical" 2000 now
  (out.1, { out.2 with pending := out.2.pending ++
    [(now + 1000, XPTimer.clearRecentAndPrevent)] })

/-- The state right after `setupWindowsSounds` runs at load (t = 0)
with the media-player window visible: the window is marked
`soundPlayed`/`initialWindow` (lines 105-112) and the 3000 ms reset
timer is pending (lines 115-127). -/
def xpInitState : XPState :=
  { enabled := true, preventAllSounds := false, recentAction := false,
    lastSoundWindow := none, activeWindows := [],
    win := { id := "wmp-window", initialWindow := true, soundPlayed := true,
             closingInProgress := false, minimized := false,
             displayNone := false },
    pending := [(3000, XPTimer.clearInitialFlags)] }

/-- C7: for a window initially visible at load, a first
visibility-observer callback arriving before the one-shot reset
completes (3000 ms for the initial flag plus 500 ms for the
`soundPlayed` flag) plays no notify sound; a later, independent
visibility change after the reset does play it. -/
theorem c7_initial_window_suppression (t1 t2 : Nat)
    (h1 : t1 < 3500) (h2 : 3500 ≤ t2) :
    (observerMutation xpInitState t1).1 = false
    ∧ (observerMutation (observerMutation xpInitState t1).2 t2).1 = true := by
  have hb : 3000 ≤ t2 := by omega
  have hb' : ¬ t2 < 3000 := by omega
  have hd : ¬ t2 < 3500 := by omega
  by_cases hc : t1 < 3000
  · have ha : ¬ 3000 ≤ t1 := by omega
    refine ⟨?_, ?_⟩ <;>
      simp [observerMutation, fireDueXP, firePass, applyXPTimer,
        playSoundForWindowXP, xpPlayTail, xpPlay, xpHasSound, xpSoundNames,
        xpInitState, ha, hc, hb, hb', h2, hd]
  · have ha : 3000 ≤ t1 := by omega
    have hc' : ¬ t1 < 3000 := by omega
    have he : ¬ 3500 ≤ t1 := by omega
    refine ⟨?_, ?_⟩ <;>
      simp [observerMutation, fireDueXP, firePass, applyXPTimer,
        playSoundForWindowXP, xpPlayTail, xpPlay, xpHasSound, xpSoundNames,
        xpInitState, ha, hc', he, h1, hb, hb', h2, hd]

/-- Witness for C7: first callback at t = 100, second at t = 4000. -/
theorem c7_initial_window_suppression_witness :
    (observerMutation xpInitState 100).1 = false
    ∧ (observerMutation (observerMutation xpInitState 100).2 4000).1
        = true :=
  c7_initial_window_suppression 100 4000 (by norm_num) (by norm_num)

theorem playSoundForWindowXP_preventAll (st : XPState) (name : String)
    (dur now : Nat) :
    (playSoundForWindowXP st name dur now).2.preventAllSounds
      = st.preventAllSounds := by
  by_cases h1 : (name == "critical") = true <;>
    by_cases h2 : st.win.soundPlayed = true <;>
    by_cases h3 : st.win.closingInProgress = true <;>
    by_cases h4 : (st.win.id == "") = true <;>
    by_cases h5 : st.win.id ∈ st.activeWindows <;>
    simp [playSoundForWindowXP, xpPlayTail, h1, h2, h3, h4, h5]

/-- C10: while `window.preventAllSounds` is set, the global manager's
`play` returns false for every sound except `critical`, and a
`critical` request overrides the prevention (with sounds enabled);
the close-button handler is what opens such a window: it sets the flag
and schedules its reset 1000 ms later. -/
theorem c10_prevent_all_sounds (e : Bool) (name : String) (st : XPState)
    (now : Nat) (hne : name ≠ "critical") :
    xpPlay e true name = false
    ∧ xpPlay true true "critical" = true
    ∧ (closeClick st now).2.preventAllSounds = true
    ∧ (now + 1000, XPTimer.clearRecentAndPrevent) ∈
        (closeClick st now).2.pending := by
  refine ⟨?_, rfl, ?_, ?_⟩
  · simp [xpPlay, hne]
  · show ({ (playSoundForWindowXP _ "critical" 2000 now).2 with
      pending := _ } : XPState).preventAllSounds = true
    simp [closeClick, playSoundForWindowXP_preventAll]
  · simp [closeClick]

/-- Witness for C10: `notify` is refused during the prevention window,
`critical` is not; a close click on the initial state opens the
prevention window. -/
theorem c10_prevent_all_sounds_witness :
    xpPlay true true "notify" = false
    ∧ xpPlay true true "critical" = true
    ∧ (closeClick xpInitState 0).2.preventAllSounds = true
    ∧ ((0 : Nat) + 1000, XPTimer.clearRecentAndPrevent) ∈
        (closeClick xpInitState 0).2.pending :=
  c10_prevent_all_sounds true "notify" xpInitState 0 (by decide)

end XP
